import Mathlib

/-!
Shallow embedding of `qtrio/_core.py`: the Outcomes aggregator, the
return-code conversion, the reenter event machinery, the Runner's
`trio_main`/`trio_done` control flow, the emissions channel and the
`Emission` equality.  Python exceptions are modelled with `Except`,
Python `outcome.Outcome` values with the `Outcome` inductive, and Qt or
trio side effects as explicit action traces.
-/

namespace QTrio

/-- The exceptions that the embedded code can raise.  `noOutcomes` is
`qtrio.NoOutcomesError`, `returnCode` is `qtrio.ReturnCodeError` holding the
non-zero application return code, `qtrioError` is the bare
`qtrio.QTrioException`, `closedResource` is `trio.ClosedResourceError`, and
`user` stands for an arbitrary exception raised by user code (the tag keeps
distinct user exceptions distinct). -/
inductive Exc : Type where
  | noOutcomes : Exc
  | returnCode (code : Int) : Exc
  | qtrioError : Exc
  | closedResource : Exc
  | user (tag : Nat) : Exc
deriving DecidableEq, Repr

/-- The `outcome.Outcome` union from the `outcome` library: either
`outcome.Value` holding a success value or `outcome.Error` holding a captured
exception. -/
inductive Outcome (α : Type) : Type where
  | value (v : α) : Outcome α
  | error (e : Exc) : Outcome α
deriving DecidableEq, Repr

/-- `outcome.Outcome.unwrap()`: a `Value` returns its value, an `Error`
re-raises its captured exception (modelled as `Except.error`). -/
def Outcome.unwrap : Outcome α → Except Exc α
  | .value v => .ok v
  | .error e => .error e

/-- `qtrio._core.Outcomes`: the frozen attrs class holding an optional Qt
outcome and an optional Trio outcome, both defaulting to `None`. -/
structure Outcomes (α : Type) : Type where
  qt : Option (Outcome α) := none
  trio : Option (Outcome α) := none
deriving DecidableEq, Repr

/-- `Outcomes.unwrap` translated line by line from `_core.py:211-232`:
if `self.trio` is set, unwrap it first (an error propagates immediately);
on a Trio success, a set `self.qt` is also unwrapped so a Qt error still
propagates, otherwise the Trio result is returned; with no Trio outcome a
set `self.qt` is unwrapped directly; with neither set,
`qtrio.NoOutcomesError` is raised. -/
def Outcomes.unwrap (self : Outcomes α) : Except Exc α :=
  match self.trio with
  | some t =>
    match t.unwrap with
    | .error e => .error e
    | .ok result =>
      match self.qt with
      | some q =>
        match q.unwrap with
        | .error e => .error e
        | .ok _ => .ok result
      | none => .ok result
  | none =>
    match self.qt with
    | some q => q.unwrap
    | none => .error .noOutcomes

/-- `qtrio._core.outcome_from_application_return_code` (`_core.py:256-267`):
a zero return code becomes `outcome.Value(return_code)`, anything else
becomes `outcome.Error(qtrio.ReturnCodeError(return_code))`. -/
def outcome_from_application_return_code (return_code : Int) : Outcome Int :=
  if return_code = 0 then
    .value return_code
  else
    .error (.returnCode return_code)

/-- A `QtCore.QEvent` of the reenter type.  The only state the embedding
tracks is the `fn` attribute that `create_reenter_event` attaches: a
zero-argument callback, modelled as a state transformer on an abstract
world state `σ` so that "called exactly once" is visible as a single
application. -/
structure QEvent (σ : Type) : Type where
  fn : σ → σ

/-- `qtrio._core.create_reenter_event` (`_core.py:44-48`): builds a
`QEvent(REENTER_EVENT)` and sets its `fn` attribute to the callback. -/
def create_reenter_event (fn : σ → σ) : QEvent σ :=
  { fn := fn }

/-- `qtrio._core.Reenter.event` (`_core.py:54-57`): when Qt delivers the
event, the handler calls `event.fn()` and returns `False`.  The result is
the world state after running the callback paired with the boolean handed
back to Qt. -/
def Reenter.event (ev : QEvent σ) (s : σ) : σ × Bool :=
  (ev.fn s, false)

/-- The observable actions `Runner.trio_done` performs besides updating
`self.outcomes`: the unconditional `print` of the outcome repr, the
traceback print for a failure, the call of the user-supplied done callback
with the current outcomes, and `self.application.quit()`. -/
inductive DoneAction : Type where
  | print_outcome (oc : Outcome Int) : DoneAction
  | print_traceback (e : Exc) : DoneAction
  | call_done_callback (ocs : Outcomes Int) : DoneAction
  | quit : DoneAction
deriving DecidableEq, Repr

/-- The mutable state of `qtrio._core.Runner` that `trio_done` reads and
writes: `quit_application` (attrs default `True`), whether a
`done_callback` was supplied (`None` or not), and the current `outcomes`
(attrs factory, so both fields start `None`). -/
structure Runner : Type where
  quit_application : Bool := true
  has_done_callback : Bool := false
  outcomes : Outcomes Int := {}
deriving DecidableEq, Repr

/-- `attr.evolve(outcomes, trio=run_outcome)` as used at `_core.py:395`:
a copy with the trio field replaced and the qt field kept. -/
def Outcomes.evolve_trio (self : Outcomes α) (t : Outcome α) : Outcomes α :=
  { self with trio := some t }

/-- `attr.evolve(outcomes, qt=...)` as used at `_core.py:342-344`:
a copy with the qt field replaced and the trio field kept. -/
def Outcomes.evolve_qt (self : Outcomes α) (q : Outcome α) : Outcomes α :=
  { self with qt := some q }

/-- `qtrio._core.Runner.trio_done` (`_core.py:386-407`), straight-line:
record the run outcome into `self.outcomes.trio` via `attr.evolve`; print
the outcome repr; if the outcome is an `outcome.Error`, print the
exception with its traceback; if a done callback was supplied, call it
with the updated outcomes; finally, if `quit_application`, call
`application.quit()`.  Returns the new runner state and the action trace
in execution order. -/
def Runner.trio_done (self : Runner) (run_outcome : Outcome Int) :
    Runner × List DoneAction :=
  let outcomes := self.outcomes.evolve_trio run_outcome
  let printed :=
    DoneAction.print_outcome run_outcome ::
      (match run_outcome with
       | .error e => [DoneAction.print_traceback e]
       | .value _ => [])
  let callback :=
    if self.has_done_callback then [DoneAction.call_done_callback outcomes]
    else []
  let quitting := if self.quit_application then [DoneAction.quit] else []
  ({ self with outcomes := outcomes }, printed ++ callback ++ quitting)

/-- The observable steps of `Runner.trio_main`: entering and leaving the
`trio.CancelScope`, connecting and disconnecting the
`application.lastWindowClosed` signal to `cancel_scope.cancel`, and the
call of the user entry function. -/
inductive MainAction : Type where
  | enter_cancel_scope : MainAction
  | connect_last_window_closed : MainAction
  | call_entry_fn : MainAction
  | disconnect_last_window_closed : MainAction
  | exit_cancel_scope : MainAction
deriving DecidableEq, Repr

/-- `qtrio._core.Runner.trio_main` (`_core.py:359-384`): a single
`trio.CancelScope` is entered; inside it a `contextlib.ExitStack` connects
`application.lastWindowClosed` to `cancel_scope.cancel` exactly when
`application.quitOnLastWindowClosed()` holds at that moment; then
`async_fn(*args)` runs.  Whether the entry function returns a value or
unwinds with an exception (`entry_result`), the `ExitStack` exit (the
disconnect, when connected) and the scope exit run on the way out.  The
model takes the entry function's result as `entry_result : Outcome` and
returns it with the step trace in execution order. -/
def Runner.trio_main (quit_on_last_window_closed : Bool)
    (entry_result : Outcome α) : Outcome α × List MainAction :=
  let connected :=
    if quit_on_last_window_closed then [MainAction.connect_last_window_closed]
    else []
  let released :=
    if quit_on_last_window_closed then
      [MainAction.disconnect_last_window_closed]
    else []
  (entry_result,
    MainAction.enter_cancel_scope ::
      (connected ++ [MainAction.call_entry_fn] ++ released ++
        [MainAction.exit_cancel_scope]))

/-- The `Outcomes` states of one `Runner.run` invocation with
`execute_application=True` (`_core.py:307-346` together with
`_core.py:386-395`): the runner starts with the attrs-factory `Outcomes()`
(both fields `None`); while `application.exec_()` runs, `trio_done` evolves
the trio field with the guest outcome; after `exec_()` returns its code,
`run` evolves the qt field with `outcome_from_application_return_code`.
Returns the three successive `Outcomes` states. -/
def Runner.run_states (guest : Outcome Int) (return_code : Int) :
    Outcomes Int × Outcomes Int × Outcomes Int :=
  let s0 : Outcomes Int := {}
  let s1 := s0.evolve_trio guest
  let s2 := s1.evolve_qt (outcome_from_application_return_code return_code)
  (s0, s1, s2)

/-- A bound signal instance (`QtCore.SignalInstance` in PySide2,
`QtCore.pyqtBoundSignal` in PyQt5).  `signal` is the identity of the
underlying unbound signal object (what `self.signal.signal` compares in
the PyQt5 branch) and `rep` is the `repr(...)` string of the bound
instance. -/
structure SignalInstance : Type where
  signal : Nat
  rep : String
deriving DecidableEq, Repr

/-- `qtrio._core.Emission` (`_core.py:89-106`): the frozen record of one
signal firing, holding the signal instance and the emitted argument
tuple. -/
structure Emission : Type where
  signal : SignalInstance
  args : List Int
deriving DecidableEq, Repr

/-- The Qt binding selected by qtpy: `qtpy.PYQT5`, `qtpy.PYSIDE2`, or any
other value of `qtpy.API` (the fall-through that `is_from` treats as an
internal error). -/
inductive API : Type where
  | pyqt5 : API
  | pyside2 : API
  | otherBinding : API
deriving DecidableEq, Repr

/-- An arbitrary Python value handed to `Emission.__eq__`: either another
`Emission` or some non-`Emission` object (the tag keeps distinct objects
distinct). -/
inductive PyObject : Type where
  | emission (e : Emission) : PyObject
  | obj (tag : Nat) : PyObject
deriving DecidableEq, Repr

/-- `Emission.is_from` (`_core.py:108-123`): under PyQt5 the underlying
signals and the `repr` strings must both match; under PySide2 the bound
signal instances are compared directly; under any other binding a
`qtrio.QTrioException` is raised (the `pragma: no cover` branch). -/
def Emission.is_from (api : API) (self : Emission) (signal : SignalInstance) :
    Except Exc Bool :=
  match api with
  | .pyqt5 =>
      .ok (self.signal.signal == signal.signal && self.signal.rep == signal.rep)
  | .pyside2 => .ok (self.signal == signal)
  | .otherBinding => .error .qtrioError

/-- `Emission.__eq__` (`_core.py:125-129`): a value of a different type
compares unequal immediately; another `Emission` compares equal exactly
when `is_from` accepts its signal and the argument tuples are equal
(short-circuiting, and propagating whatever `is_from` raises). -/
def Emission.eq (api : API) (self : Emission) (other : PyObject) :
    Except Exc Bool :=
  match other with
  | .obj _ => .ok false
  | .emission o =>
    match self.is_from api o.signal with
    | .error e => .error e
    | .ok b => .ok (b && (self.args == o.args))

/-- The possible results of one `trio.MemoryReceiveChannel.receive()` step:
a delivered value, `trio.EndOfChannel` ("closed"), or blocking until a
value arrives (a hang when nothing more will be sent). -/
inductive RecvResult (α : Type) : Type where
  | value (x : α) : RecvResult α
  | end_of_channel : RecvResult α
  | would_block : RecvResult α
deriving DecidableEq, Repr

/-- The state shared by the `trio.open_memory_channel(max_buffer_size=inf)`
pair that `open_emissions_channel` creates (`_core.py:165`): the queued
items in order and whether the send side has been closed.  The operation
semantics below follow trio's memory channels, the external collaborator
the source delegates to. -/
structure MemoryChannel (α : Type) : Type where
  buffer : List α := []
  send_closed : Bool := false
deriving DecidableEq, Repr

/-- `trio.MemorySendChannel.send` on an unbounded channel: appends to the
buffer while the send side is open, raises `trio.ClosedResourceError` once
it has been closed. -/
def MemoryChannel.send (self : MemoryChannel α) (x : α) :
    Except Exc (MemoryChannel α) :=
  if self.send_closed then .error .closedResource
  else .ok { self with buffer := self.buffer ++ [x] }

/-- `trio.MemorySendChannel.aclose`: marks the send side closed; items
already queued stay in the buffer. -/
def MemoryChannel.aclose (self : MemoryChannel α) : MemoryChannel α :=
  { self with send_closed := true }

/-- `trio.MemoryReceiveChannel.receive`: delivers the oldest queued item if
any; with an empty buffer it reports `EndOfChannel` when the send side is
closed and otherwise blocks waiting for a sender. -/
def MemoryChannel.receive (self : MemoryChannel α) :
    RecvResult α × MemoryChannel α :=
  match self.buffer with
  | x :: rest => (.value x, { self with buffer := rest })
  | [] =>
    if self.send_closed then (.end_of_channel, self)
    else (.would_block, self)

/-- `qtrio._core.Emissions` (`_core.py:132-148`): holds the receive channel
and the send channel's `aclose`; in this embedding both ends are the one
shared channel state. -/
structure Emissions : Type where
  channel : MemoryChannel Emission

/-- `Emissions.aclose` (`_core.py:144-148`): calls the stored
`send_channel.aclose`. -/
def Emissions.aclose (self : Emissions) : Emissions :=
  { self with channel := self.channel.aclose }

/-- The `slot` closure inside `open_emissions_channel` (`_core.py:167-168`):
on a firing of `signal` with arguments `args` it sends
`Emission(signal=signal, args=args)` into the channel. -/
def slot (ch : MemoryChannel Emission) (signal : SignalInstance)
    (args : List Int) : Except Exc (MemoryChannel Emission) :=
  ch.send { signal := signal, args := args }

/-- The C8 scenario over the embedded channel: open a subscription (a fresh
open channel, as built by `open_emissions_channel`), fire the source once
with `args` (the connected `slot` enqueues the `Emission`), close the
subscription via `Emissions.aclose`, then receive twice.  Returns the two
receive results. -/
def fire_close_receive (signal : SignalInstance) (args : List Int) :
    Except Exc (RecvResult Emission × RecvResult Emission) := do
  let opened : MemoryChannel Emission := {}
  let fired ← slot opened signal args
  let emissions := Emissions.aclose { channel := fired }
  let (first, remaining) := emissions.channel.receive
  let (second, _) := remaining.receive
  return (first, second)

/-- C1: an `Outcomes` whose trio (guest-task) field is a failure `e1` and
whose qt (host-loop) field is a failure `e2` unwraps by raising `e1`; the
host-loop failure `e2` is never the one surfaced. -/
theorem unwrap_guest_failure_wins (e1 e2 : Exc) :
    (Outcomes.unwrap { qt := some (.error e2), trio := some (.error e1) } :
      Except Exc Int) = .error e1 := by
  simp [Outcomes.unwrap, Outcome.unwrap]

/-- C2: an `Outcomes` whose trio (guest-task) field is a success `v` and
whose qt (host-loop) field is a failure `e` unwraps by raising `e` instead
of returning `v`. -/
theorem unwrap_host_failure_over_guest_success (v : Int) (e : Exc) :
    Outcomes.unwrap { qt := some (.error e), trio := some (.value v) } =
      .error e := by
  simp [Outcomes.unwrap, Outcome.unwrap]

/-- C3: the empty `Outcomes` (both fields `None`) unwraps by raising
`NoOutcomesError`, and an `Outcomes` with only the trio field set to a
success `v` unwraps by returning `v`. -/
theorem unwrap_empty_and_guest_only (v : Int) :
    (Outcomes.unwrap { qt := none, trio := none } : Except Exc Int) =
        .error .noOutcomes
      ∧ Outcomes.unwrap { qt := none, trio := some (.value v) } = .ok v := by
  constructor
  · simp [Outcomes.unwrap]
  · simp [Outcomes.unwrap, Outcome.unwrap]

/-- C5: `outcome_from_application_return_code n` unwraps to the value `0`
when `n = 0`, and for every `n ≠ 0` unwraps by raising
`ReturnCodeError(n)`. -/
theorem outcome_from_return_code_spec (n : Int) :
    (outcome_from_application_return_code n).unwrap =
      if n = 0 then .ok 0 else .error (.returnCode n) := by
  by_cases h : n = 0 <;>
    simp [outcome_from_application_return_code, Outcome.unwrap, h]

/-- C7: for every delivered reenter event built by `create_reenter_event fn`,
`Reenter.event` applies the carried callback `fn` exactly once to the world
state and returns `False` ("not handled / continue propagation") to Qt. -/
theorem reenter_event_calls_fn_once_returns_false (σ : Type) (fn : σ → σ)
    (s : σ) :
    Reenter.event (create_reenter_event fn) s = (fn s, false) := by
  rfl

/-- C4: when the entry function finishes with a failure `e` and the runner
has a done callback and the default `quit_application = true`, `trio_done`
records the failure into the trio field of the outcomes (leaving qt
unchanged), and its action trace is exactly: print the outcome, print the
error with its traceback, call the done callback once with the updated
outcomes, and only then request the application to quit. -/
theorem trio_done_failure_order (r : Runner) (e : Exc)
    (hq : r.quit_application = true) (hc : r.has_done_callback = true) :
    (r.trio_done (.error e)).1.outcomes.trio = some (.error e)
      ∧ (r.trio_done (.error e)).1.outcomes.qt = r.outcomes.qt
      ∧ (r.trio_done (.error e)).2 =
          [DoneAction.print_outcome (.error e),
           DoneAction.print_traceback e,
           DoneAction.call_done_callback (r.outcomes.evolve_trio (.error e)),
           DoneAction.quit]
      ∧ ((r.trio_done (.error e)).2.count
          (DoneAction.call_done_callback
            (r.outcomes.evolve_trio (.error e)))) = 1 := by
  refine ⟨rfl, rfl, ?_, ?_⟩
  · simp [Runner.trio_done, hq, hc]
  · simp [Runner.trio_done, hq, hc, List.count_cons]

/-- Witness for C4 at a concrete runner and failure. -/
theorem trio_done_failure_order_witness :
    (Runner.trio_done { has_done_callback := true } (.error (.user 7))).2 =
      [DoneAction.print_outcome (.error (.user 7)),
       DoneAction.print_traceback (.user 7),
       DoneAction.call_done_callback
         (Outcomes.evolve_trio
           (Runner.outcomes { has_done_callback := true }) (.error (.user 7))),
       DoneAction.quit] :=
  (trio_done_failure_order { has_done_callback := true } (.user 7)
    rfl rfl).2.2.1

/-- C6: in `trio_main` exactly one cancel scope is entered and exited and it
wraps the single entry-function call; the `lastWindowClosed` connection is
made exactly when the application is configured to quit on last window
closed, before the entry function is called; and on both exit paths
(a returned value and an unwinding failure) the connection is released
after the call and before the scope exits: the full trace is fixed by the
flag alone, independent of how the entry function finishes. -/
theorem trio_main_scope_and_connection (q : Bool) (res : Outcome Int) :
    (Runner.trio_main q res).1 = res
      ∧ (Runner.trio_main q res).2.count MainAction.enter_cancel_scope = 1
      ∧ (Runner.trio_main q res).2.count MainAction.exit_cancel_scope = 1
      ∧ (Runner.trio_main q res).2.count MainAction.call_entry_fn = 1
      ∧ (Runner.trio_main q res).2.count MainAction.connect_last_window_closed
          = (if q then 1 else 0)
      ∧ (Runner.trio_main q res).2.count
            MainAction.disconnect_last_window_closed = (if q then 1 else 0)
      ∧ (Runner.trio_main q res).2 =
          (if q then
            [MainAction.enter_cancel_scope,
             MainAction.connect_last_window_closed,
             MainAction.call_entry_fn,
             MainAction.disconnect_last_window_closed,
             MainAction.exit_cancel_scope]
          else
            [MainAction.enter_cancel_scope,
             MainAction.call_entry_fn,
             MainAction.exit_cancel_scope]) := by
  cases q <;>
    refine ⟨rfl, ?_, ?_, ?_, ?_, ?_, rfl⟩ <;>
      simp [Runner.trio_main, List.count_cons]

/-- C9: across one `run` invocation the `Outcomes` pair starts with both
fields unset; the `trio_done` step sets only the trio field, leaving the qt
field (still unset) unchanged; the post-`exec_` step sets only the qt
field, leaving the already-recorded trio field unchanged; each field is
written exactly once, from the unset state, so no assignment overwrites an
already-set field. -/
theorem run_states_each_field_set_once (guest : Outcome Int)
    (return_code : Int) :
    (Runner.run_states guest return_code).1 = { qt := none, trio := none }
      ∧ (Runner.run_states guest return_code).2.1.trio = some guest
      ∧ (Runner.run_states guest return_code).2.1.qt =
          (Runner.run_states guest return_code).1.qt
      ∧ (Runner.run_states guest return_code).2.1.qt = none
      ∧ (Runner.run_states guest return_code).2.2.qt =
          some (outcome_from_application_return_code return_code)
      ∧ (Runner.run_states guest return_code).2.2.trio =
          (Runner.run_states guest return_code).2.1.trio := by
  exact ⟨rfl, rfl, rfl, rfl, rfl, rfl⟩

/-- C8 counterexample: in the concrete scenario — subscription opened on
source S, S fired with args `(1, 2)`, subscription closed, then a receive —
the receive observes the queued value `Emission(S, (1, 2))`, not the
closed-channel signal: closing the send side leaves already-queued
emissions deliverable, so the claim's "observes closed, not a value" fails
on the first receive. -/
theorem fire_close_receive_first_is_value :
    (fire_close_receive { signal := 0, rep := "s" } [1, 2] =
        .ok (.value { signal := { signal := 0, rep := "s" }, args := [1, 2] },
          .end_of_channel))
      ∧ Except.map Prod.fst (fire_close_receive { signal := 0, rep := "s" } [1, 2]) ≠
          .ok RecvResult.end_of_channel := by
  refine ⟨rfl, ?_⟩
  intro h
  simp [fire_close_receive, slot, MemoryChannel.send, Emissions.aclose,
    MemoryChannel.aclose, MemoryChannel.receive, Bind.bind, Except.bind,
    Except.map, pure, Except.pure] at h

/-- C8 amended: after opening a subscription, firing the source once with
`args` and closing the subscription, the first receive observes the queued
`Emission(signal, args)`; once the queue is drained the next receive
observes "closed" (`EndOfChannel`) — not a spurious value and not a
hang. -/
theorem fire_close_receive_drains_then_closed (signal : SignalInstance)
    (args : List Int) :
    fire_close_receive signal args =
      .ok (.value { signal := signal, args := args }, .end_of_channel) := by
  rfl

/-- C10: `Emission.__eq__` is total and type-guarded: comparing an
`Emission` with any non-`Emission` object returns `False` under every Qt
binding (never raises, the type check short-circuits `is_from`); and for
two `Emission`s, under the supported bindings, equality holds exactly when
`is_from` identifies the other's signal as the source and the argument
tuples are equal. -/
theorem emission_eq_total_and_guarded :
    (∀ (api : API) (e : Emission) (tag : Nat),
        Emission.eq api e (PyObject.obj tag) = .ok false)
      ∧ ∀ (api : API) (e o : Emission), api ≠ API.otherBinding →
          (Emission.eq api e (PyObject.emission o) = .ok true ↔
            e.is_from api o.signal = .ok true ∧ e.args = o.args) := by
  constructor
  · intro api e tag
    rfl
  · intro api e o h
    cases api with
    | otherBinding => exact absurd rfl h
    | pyqt5 =>
        simp [Emission.eq, Emission.is_from, Bool.and_eq_true]
    | pyside2 =>
        simp [Emission.eq, Emission.is_from, Bool.and_eq_true]

/-- Witness for C10 at the PyQt5 binding and a concrete pair of equal
emissions. -/
theorem emission_eq_total_and_guarded_witness :
    Emission.eq API.pyqt5
        { signal := { signal := 0, rep := "s" }, args := [1, 2] }
        (PyObject.emission
          { signal := { signal := 0, rep := "s" }, args := [1, 2] }) =
        .ok true ↔
      Emission.is_from API.pyqt5
          { signal := { signal := 0, rep := "s" }, args := [1, 2] }
          { signal := 0, rep := "s" } = .ok true
        ∧ ([1, 2] : List Int) = [1, 2] :=
  emission_eq_total_and_guarded.2 API.pyqt5
    { signal := { signal := 0, rep := "s" }, args := [1, 2] }
    { signal := { signal := 0, rep := "s" }, args := [1, 2] }
    (by decide)

end QTrio
